import Mathlib

/-!
Verification of the QuickNote API note controller
(`src/controllers/noteController.js`): the validation-and-sanitization
pipeline of `createNote`/`updateNote`, the not-found and store-exception
translation of all five handlers, and the `sanitize` tag stripper.

JavaScript strings are modelled as `List Char`; a possibly-missing request
field as `Option (List Char)` (with the empty string falsy, as in JS).
The note store is an abstract collaborator whose operations either return
a value or raise; handlers additionally return the trace of store calls
they made, so "the store was never invoked" is expressible.
-/

/-- JavaScript string, modelled as a list of characters. -/
abbrev JStr := List Char

/-- `MAX_TITLE_LENGTH` from `noteController.js`. -/
def MAX_TITLE_LENGTH : Nat := 255

/-- `MAX_CONTENT_LENGTH` from `noteController.js`. -/
def MAX_CONTENT_LENGTH : Nat := 500

/-- Whitespace as recognized by JavaScript `String.prototype.trim`:
`WhiteSpace` (tab, VT, FF, space, NBSP, ZWNBSP, Unicode `Space_Separator`)
and `LineTerminator` (LF, CR, LS, PS) code points. -/
def jsIsWs (c : Char) : Bool :=
  c.val = 0x09 || c.val = 0x0A || c.val = 0x0B || c.val = 0x0C ||
  c.val = 0x0D || c.val = 0x20 || c.val = 0xA0 || c.val = 0x1680 ||
  (0x2000 ≤ c.val && c.val ≤ 0x200A) ||
  c.val = 0x2028 || c.val = 0x2029 || c.val = 0x202F || c.val = 0x205F ||
  c.val = 0x3000 || c.val = 0xFEFF

/-- JavaScript `str.trim()`: remove leading and trailing whitespace. -/
def jsTrim (l : JStr) : JStr :=
  ((l.dropWhile jsIsWs).reverse.dropWhile jsIsWs).reverse

/-- Scanning after a `<`: the regex `<[^>]*>` matches through the first
following `>`; `dropTag l` drops up to and including that `>`, or is
`none` when no `>` remains (so the `<` is not part of any match). -/
def dropTag : JStr → Option JStr
  | [] => none
  | c :: rest => if c = '>' then some rest else dropTag rest

theorem dropTag_length {l r : JStr} (h : dropTag l = some r) :
    r.length < l.length := by
  induction l with
  | nil => simp [dropTag] at h
  | cons c rest ih =>
    by_cases hc : c = '>'
    · simp [dropTag, hc] at h
      simp [← h]
    · simp [dropTag, hc] at h
      exact Nat.lt_succ_of_lt (ih h)

/-- The `sanitize` function of `noteController.js`,
`str.replace(/<[^>]*>/g, '')`: repeatedly delete each `<`-through-first-`>`
segment, scanning left to right; a `<` with no later `>` is kept. -/
def sanitizeList : JStr → JStr
  | [] => []
  | c :: rest =>
    if c = '<' then
      match h : dropTag rest with
      | some rest' => sanitizeList rest'
      | none => c :: sanitizeList rest
    else c :: sanitizeList rest
termination_by l => l.length
decreasing_by
  · exact Nat.lt_succ_of_lt (dropTag_length h)
  · exact Nat.lt_succ_self _
  · exact Nat.lt_succ_self _

/-- A persisted note record as returned by the store (`Note` model row,
timestamps omitted: no claim concerns them). -/
structure Note where
  id : Nat
  title : JStr
  content : JStr
deriving DecidableEq, Repr

/-- Outcome of a store operation: a value, or a raised exception
(`pool.query` rejecting). Absence is signalled inside the value
(`rows[0]` is `undefined`), not by raising. -/
inductive StoreResult (α : Type) where
  | ok (a : α)
  | exn
deriving DecidableEq, Repr

/-- The note store collaborator (`Note` model of `models/Note.js`):
`create`, `findAll`, `findById`, `update`, `delete`. Lookups return
`Option Note` because the model returns `result.rows[0]`. -/
structure Store where
  create : JStr → JStr → StoreResult Note
  findAll : StoreResult (List Note)
  findById : JStr → StoreResult (Option Note)
  update : JStr → JStr → JStr → StoreResult (Option Note)
  deleteById : JStr → StoreResult (Option Note)

/-- One store invocation, recorded so a theorem can state that a handler
did or did not reach the store. -/
inductive StoreCall where
  | create (title content : JStr)
  | findAll
  | findById (id : JStr)
  | update (id title content : JStr)
  | deleteById (id : JStr)
deriving DecidableEq, Repr

/-- Response body shapes produced by the controller. -/
inductive Body where
  | note (n : Note)
  | notes (ns : List Note)
  | error (msg : String)
  | deleted (msg : String) (n : Note)
deriving DecidableEq, Repr

/-- An HTTP-style response: status code and JSON body. `res.json` without
`res.status` uses the Express default status 200. -/
structure Response where
  status : Nat
  body : Body
deriving DecidableEq, Repr

/-- JavaScript falsiness of a possibly-missing string field: `undefined`
and the empty string are falsy (`!title`). -/
def falsy : Option JStr → Bool
  | none => true
  | some s => s.isEmpty

/-- `createNote` of `noteController.js`: presence, title-empty,
content-empty, title-length, content-length checks in order, then
sanitize both trimmed fields and call `Note.create`; a store exception
becomes the generic 500. Returns the response and the trace of store
calls made. -/
def createNote (store : Store) (title content : Option JStr) :
    Response × List StoreCall :=
  if falsy title || falsy content then
    (⟨400, .error ("Title and content are required")⟩, [])
  else
    let t := title.getD []
    let c := content.getD []
    if (jsTrim t).length = 0 then
      (⟨400, .error ("Title cannot be empty")⟩, [])
    else if (jsTrim c).length = 0 then
      (⟨400, .error ("Content cannot be empty")⟩, [])
    else if (jsTrim t).length > MAX_TITLE_LENGTH then
      (⟨400, .error ("Title must be " ++ toString MAX_TITLE_LENGTH ++
        " characters or less")⟩, [])
    else if (jsTrim c).length > MAX_CONTENT_LENGTH then
      (⟨400, .error ("Content must be " ++ toString MAX_CONTENT_LENGTH ++
        " characters or less")⟩, [])
    else
      let st := sanitizeList (jsTrim t)
      let sc := sanitizeList (jsTrim c)
      match store.create st sc with
      | .ok n => (⟨201, .note n⟩, [.create st sc])
      | .exn => (⟨500, .error ("Failed to create note")⟩, [.create st sc])

/-- `getAllNotes` of `noteController.js`. -/
def getAllNotes (store : Store) : Response × List StoreCall :=
  match store.findAll with
  | .ok ns => (⟨200, .notes ns⟩, [.findAll])
  | .exn => (⟨500, .error ("Failed to fetch notes")⟩, [.findAll])

/-- `getNoteById` of `noteController.js`: absent result gives 404. -/
def getNoteById (store : Store) (id : JStr) : Response × List StoreCall :=
  match store.findById id with
  | .ok none => (⟨404, .error ("Note not found")⟩, [.findById id])
  | .ok (some n) => (⟨200, .note n⟩, [.findById id])
  | .exn => (⟨500, .error ("Failed to fetch note")⟩, [.findById id])

/-- `updateNote` of `noteController.js`: the same five validation checks
as `createNote`, then `Note.update`; an absent result gives 404. -/
def updateNote (store : Store) (id : JStr) (title content : Option JStr) :
    Response × List StoreCall :=
  if falsy title || falsy content then
    (⟨400, .error ("Title and content are required")⟩, [])
  else
    let t := title.getD []
    let c := content.getD []
    if (jsTrim t).length = 0 then
      (⟨400, .error ("Title cannot be empty")⟩, [])
    else if (jsTrim c).length = 0 then
      (⟨400, .error ("Content cannot be empty")⟩, [])
    else if (jsTrim t).length > MAX_TITLE_LENGTH then
      (⟨400, .error ("Title must be " ++ toString MAX_TITLE_LENGTH ++
        " characters or less")⟩, [])
    else if (jsTrim c).length > MAX_CONTENT_LENGTH then
      (⟨400, .error ("Content must be " ++ toString MAX_CONTENT_LENGTH ++
        " characters or less")⟩, [])
    else
      let st := sanitizeList (jsTrim t)
      let sc := sanitizeList (jsTrim c)
      match store.update id st sc with
      | .ok none => (⟨404, .error ("Note not found")⟩, [.update id st sc])
      | .ok (some n) => (⟨200, .note n⟩, [.update id st sc])
      | .exn =>
        (⟨500, .error ("Failed to update note")⟩, [.update id st sc])

/-- `deleteNote` of `noteController.js`: absent result gives 404; success
wraps the deleted note with a confirmation message. -/
def deleteNote (store : Store) (id : JStr) : Response × List StoreCall :=
  match store.deleteById id with
  | .ok none => (⟨404, .error ("Note not found")⟩, [.deleteById id])
  | .ok (some n) =>
    (⟨200, .deleted ("Note deleted successfully") n⟩, [.deleteById id])
  | .exn => (⟨500, .error ("Failed to delete note")⟩, [.deleteById id])

/-- A store for which every operation succeeds: `create`/`update` echo
their arguments back as the persisted row, lookups find a note. -/
def okStore : Store where
  create := fun t c => .ok ⟨1, t, c⟩
  findAll := .ok []
  findById := fun _ => .ok (some ⟨1, [], []⟩)
  update := fun _ t c => .ok (some ⟨1, t, c⟩)
  deleteById := fun _ => .ok (some ⟨1, [], []⟩)

/-- A store whose lookups all come back absent (`rows` empty). -/
def absentStore : Store where
  create := fun t c => .ok ⟨1, t, c⟩
  findAll := .ok []
  findById := fun _ => .ok none
  update := fun _ _ _ => .ok none
  deleteById := fun _ => .ok none

/-- A store whose every operation raises. -/
def exnStore : Store where
  create := fun _ _ => .exn
  findAll := .exn
  findById := fun _ => .exn
  update := fun _ _ _ => .exn
  deleteById := fun _ => .exn

/-! ### Properties of `dropTag`, `sanitizeList`, `jsTrim` -/

theorem dropTag_suffix {l r : JStr} (h : dropTag l = some r) : r <:+ l := by
  induction l with
  | nil => simp [dropTag] at h
  | cons c rest ih =>
    by_cases hc : c = '>'
    · simp [dropTag, hc] at h
      rw [← h]
      exact List.suffix_cons c rest
    · simp [dropTag, hc] at h
      exact (ih h).trans (List.suffix_cons c rest)

theorem dropTag_eq_none {l : JStr} : dropTag l = none ↔ '>' ∉ l := by
  induction l with
  | nil => simp [dropTag]
  | cons c rest ih =>
    by_cases hc : c = '>'
    · subst hc
      simp [dropTag]
    · have hc' : ('>' : Char) ≠ c := fun h => hc h.symm
      simp [dropTag, hc, ih, hc']

theorem sanitizeList_cons_some {rest rest' : JStr}
    (h : dropTag rest = some rest') :
    sanitizeList ('<' :: rest) = sanitizeList rest' := by
  conv_lhs => rw [sanitizeList.eq_def]
  dsimp only
  rw [if_pos rfl]
  split
  · next r' heq =>
    rw [heq] at h
    cases h
    rfl
  · next heq =>
    rw [heq] at h
    cases h

theorem sanitizeList_cons_none {rest : JStr} (h : dropTag rest = none) :
    sanitizeList ('<' :: rest) = '<' :: sanitizeList rest := by
  conv_lhs => rw [sanitizeList.eq_def]
  dsimp only
  rw [if_pos rfl]
  split
  · next r' heq =>
    rw [heq] at h
    cases h
  · rfl

theorem sanitizeList_cons_ne {c : Char} {rest : JStr} (h : c ≠ '<') :
    sanitizeList (c :: rest) = c :: sanitizeList rest := by
  conv_lhs => rw [sanitizeList.eq_def]
  dsimp only
  rw [if_neg h]

theorem mem_sanitizeList {a : Char} {l : JStr} (h : a ∈ sanitizeList l) :
    a ∈ l := by
  induction l using sanitizeList.induct with
  | case1 => simp [sanitizeList] at h
  | case2 rest rest' hdt ih =>
    rw [sanitizeList_cons_some hdt] at h
    exact List.mem_cons_of_mem _ ((dropTag_suffix hdt).subset (ih h))
  | case3 rest hdt ih =>
    rw [sanitizeList_cons_none hdt] at h
    rcases List.mem_cons.mp h with h | h
    · simp [h]
    · exact List.mem_cons_of_mem _ (ih h)
  | case4 c rest hc ih =>
    rw [sanitizeList_cons_ne hc] at h
    rcases List.mem_cons.mp h with h | h
    · simp [h]
    · exact List.mem_cons_of_mem _ (ih h)

theorem sanitizeList_length_le (l : JStr) :
    (sanitizeList l).length ≤ l.length := by
  induction l using sanitizeList.induct with
  | case1 => simp [sanitizeList]
  | case2 rest rest' hdt ih =>
    rw [sanitizeList_cons_some hdt]
    exact le_trans ih (Nat.le_of_lt (Nat.lt_succ_of_lt (dropTag_length hdt)))
  | case3 rest hdt ih =>
    rw [sanitizeList_cons_none hdt]
    simpa using Nat.succ_le_succ ih
  | case4 c rest hc ih =>
    rw [sanitizeList_cons_ne hc]
    simpa using Nat.succ_le_succ ih

/-- `l` contains a complete substring matching the tag pattern `<[^>]*>`,
which is the case exactly when some `<` is followed (anywhere later) by a
`>`: the match then runs to the first such `>`. -/
def hasTag : JStr → Bool
  | [] => false
  | c :: rest =>
    if c = '<' then (decide ('>' ∈ rest) || hasTag rest) else hasTag rest

theorem hasTag_sanitizeList (l : JStr) : hasTag (sanitizeList l) = false := by
  induction l using sanitizeList.induct with
  | case1 => simp [sanitizeList, hasTag]
  | case2 rest rest' hdt ih =>
    rw [sanitizeList_cons_some hdt]
    exact ih
  | case3 rest hdt ih =>
    rw [sanitizeList_cons_none hdt]
    have hmem : '>' ∉ sanitizeList rest := by
      intro hx
      exact (dropTag_eq_none.mp hdt) (mem_sanitizeList hx)
    simp [hasTag, hmem, ih]
  | case4 c rest hc ih =>
    rw [sanitizeList_cons_ne hc]
    simp [hasTag, hc, ih]

theorem sanitizeList_eq_self {l : JStr} (h : hasTag l = false) :
    sanitizeList l = l := by
  induction l with
  | nil => simp [sanitizeList]
  | cons c rest ih =>
    by_cases hc : c = '<'
    · subst hc
      have h1 : '>' ∉ rest := by
        intro hx
        simp [hasTag, hx] at h
      have h2 : hasTag rest = false := by
        simpa [hasTag, h1] using h
      rw [sanitizeList_cons_none (dropTag_eq_none.mpr h1), ih h2]
    · have h2 : hasTag rest = false := by simpa [hasTag, hc] using h
      rw [sanitizeList_cons_ne hc, ih h2]

theorem sanitizeList_idem (l : JStr) :
    sanitizeList (sanitizeList l) = sanitizeList l :=
  sanitizeList_eq_self (hasTag_sanitizeList l)

theorem hasTag_of_no_lt {l : JStr} (h : '<' ∉ l) : hasTag l = false := by
  induction l with
  | nil => simp [hasTag]
  | cons c rest ih =>
    have hc : c ≠ '<' := fun hx => h (by simp [hx])
    simp [hasTag, hc, ih (fun hx => h (List.mem_cons_of_mem _ hx))]

theorem head?_dropWhile_not (p : Char → Bool) :
    ∀ {l : JStr} {x : Char}, (l.dropWhile p).head? = some x → p x = false := by
  intro l
  induction l with
  | nil => intro x h; simp [List.dropWhile] at h
  | cons c rest ih =>
    intro x h
    by_cases hc : p c
    · rw [List.dropWhile_cons, if_pos hc] at h
      exact ih h
    · rw [List.dropWhile_cons, if_neg hc, List.head?_cons] at h
      injection h with h
      subst h
      exact Bool.eq_false_iff.mpr hc

theorem jsTrim_head?_not_ws {l : JStr} {x : Char}
    (h : (jsTrim l).head? = some x) : jsIsWs x = false := by
  have hpre : jsTrim l <+: (l.dropWhile jsIsWs) :=
    List.rdropWhile_prefix jsIsWs (l.dropWhile jsIsWs)
  obtain ⟨t, ht⟩ := hpre
  have : (l.dropWhile jsIsWs).head? = some x := by
    rw [← ht, List.head?_append, h]
    rfl
  exact head?_dropWhile_not jsIsWs this

theorem jsTrim_getLast?_not_ws {l : JStr} {x : Char}
    (h : (jsTrim l).getLast? = some x) : jsIsWs x = false := by
  unfold jsTrim at h
  rw [List.getLast?_reverse] at h
  exact head?_dropWhile_not jsIsWs h

theorem dropWhile_all_false {p : Char → Bool} {l : JStr}
    (h : ∀ a ∈ l, p a = false) : l.dropWhile p = l := by
  cases l with
  | nil => rfl
  | cons c rest =>
    rw [List.dropWhile_cons, h c (by simp)]
    simp

theorem jsTrim_all_not_ws {l : JStr} (h : ∀ a ∈ l, jsIsWs a = false) :
    jsTrim l = l := by
  unfold jsTrim
  rw [dropWhile_all_false h,
    dropWhile_all_false (fun a ha => h a (List.mem_reverse.mp ha)),
    List.reverse_reverse]

theorem dropWhile_eq_self_of_head {p : Char → Bool} {m : JStr}
    (h : ∀ x, m.head? = some x → p x = false) : m.dropWhile p = m := by
  cases m with
  | nil => rfl
  | cons c rest =>
    rw [List.dropWhile_cons, h c rfl]
    simp

theorem jsTrim_eq_self {m : JStr}
    (h1 : ∀ x, m.head? = some x → jsIsWs x = false)
    (h2 : ∀ x, m.getLast? = some x → jsIsWs x = false) : jsTrim m = m := by
  unfold jsTrim
  rw [dropWhile_eq_self_of_head h1, dropWhile_eq_self_of_head ?hrev,
    List.reverse_reverse]
  case hrev =>
    intro x hx
    rw [List.head?_reverse] at hx
    exact h2 x hx

theorem jsTrim_idem (l : JStr) : jsTrim (jsTrim l) = jsTrim l :=
  jsTrim_eq_self (fun _ hx => jsTrim_head?_not_ws hx)
    (fun _ hx => jsTrim_getLast?_not_ws hx)

theorem mem_split_first {a : Char} {l : JStr} (h : a ∈ l) :
    ∃ s t : JStr, l = s ++ a :: t ∧ a ∉ s := by
  induction l with
  | nil => simp at h
  | cons c rest ih =>
    by_cases hc : c = a
    · exact ⟨[], rest, by simp [hc], by simp⟩
    · have hmem : a ∈ rest := by
        rcases List.mem_cons.mp h with h | h
        · exact absurd h.symm hc
        · exact h
      obtain ⟨s, t, hst, hns⟩ := ih hmem
      refine ⟨c :: s, t, by simp [hst], ?_⟩
      intro hx
      rcases List.mem_cons.mp hx with hx | hx
      · exact hc hx.symm
      · exact hns hx

/-- `hasTag` is the right reading of "contains a complete substring
matching `<[^>]*>`": it is true exactly when the string splits as
`pre ++ '<' :: mid ++ '>' :: post` with no `>` inside `mid`. -/
theorem hasTag_iff {l : JStr} :
    hasTag l = true ↔
      ∃ pre mid post : JStr,
        l = pre ++ '<' :: (mid ++ '>' :: post) ∧ '>' ∉ mid := by
  constructor
  · intro h
    induction l with
    | nil => simp [hasTag] at h
    | cons c rest ih =>
      by_cases hc : c = '<'
      · rw [hc, hasTag, if_pos rfl, Bool.or_eq_true] at h
        rcases h with h | h
        · obtain ⟨s, t, hst, hns⟩ := mem_split_first (of_decide_eq_true h)
          exact ⟨[], s, t, by simp [hc, hst], hns⟩
        · obtain ⟨pre, mid, post, heq, hmid⟩ := ih h
          exact ⟨c :: pre, mid, post, by simp [heq], hmid⟩
      · rw [hasTag, if_neg hc] at h
        obtain ⟨pre, mid, post, heq, hmid⟩ := ih h
        exact ⟨c :: pre, mid, post, by simp [heq], hmid⟩
  · rintro ⟨pre, mid, post, heq, -⟩
    subst heq
    induction pre with
    | nil =>
      rw [List.nil_append, hasTag, if_pos rfl]
      simp
    | cons d pre' ih =>
      rw [List.cons_append, hasTag]
      by_cases hd : d = '<' <;> simp [hd, ih]

theorem create_trace_inv {store : Store} {t? c? : Option JStr} {st sc : JStr}
    (h : StoreCall.create st sc ∈ (createNote store t? c?).2) :
    ∃ t c : JStr, t? = some t ∧ c? = some c ∧
      (jsTrim t).length ≠ 0 ∧ (jsTrim c).length ≠ 0 ∧
      (jsTrim t).length ≤ MAX_TITLE_LENGTH ∧
      (jsTrim c).length ≤ MAX_CONTENT_LENGTH ∧
      st = sanitizeList (jsTrim t) ∧ sc = sanitizeList (jsTrim c) := by
  rcases t? with _ | t
  · simp [createNote, falsy] at h
  rcases c? with _ | c
  · simp [createNote, falsy] at h
  by_cases h1 : t.isEmpty
  · simp [createNote, falsy, h1] at h
  by_cases h2 : c.isEmpty
  · simp [createNote, falsy, h1, h2] at h
  by_cases h3 : (jsTrim t).length = 0
  · simp [createNote, falsy, h1, h2, h3] at h
  by_cases h4 : (jsTrim c).length = 0
  · simp [createNote, falsy, h1, h2, h3, h4] at h
  by_cases h5 : (jsTrim t).length > MAX_TITLE_LENGTH
  · simp [createNote, falsy, h1, h2, h3, h4, h5] at h
  by_cases h6 : (jsTrim c).length > MAX_CONTENT_LENGTH
  · simp [createNote, falsy, h1, h2, h3, h4, h5, h6] at h
  refine ⟨t, c, rfl, rfl, h3, h4, Nat.le_of_not_lt h5, Nat.le_of_not_lt h6,
    ?_⟩
  rcases hcr : store.create (sanitizeList (jsTrim t)) (sanitizeList (jsTrim c))
    with n | _ <;>
    · simp [createNote, falsy, h1, h2, h3, h4, h5, h6, hcr] at h
      exact ⟨h.1, h.2⟩

theorem update_trace_inv {store : Store} {id : JStr} {t? c? : Option JStr}
    {st sc : JStr}
    (h : StoreCall.update id st sc ∈ (updateNote store id t? c?).2) :
    ∃ t c : JStr, t? = some t ∧ c? = some c ∧
      (jsTrim t).length ≠ 0 ∧ (jsTrim c).length ≠ 0 ∧
      (jsTrim t).length ≤ MAX_TITLE_LENGTH ∧
      (jsTrim c).length ≤ MAX_CONTENT_LENGTH ∧
      st = sanitizeList (jsTrim t) ∧ sc = sanitizeList (jsTrim c) := by
  rcases t? with _ | t
  · simp [updateNote, falsy] at h
  rcases c? with _ | c
  · simp [updateNote, falsy] at h
  by_cases h1 : t.isEmpty
  · simp [updateNote, falsy, h1] at h
  by_cases h2 : c.isEmpty
  · simp [updateNote, falsy, h1, h2] at h
  by_cases h3 : (jsTrim t).length = 0
  · simp [updateNote, falsy, h1, h2, h3] at h
  by_cases h4 : (jsTrim c).length = 0
  · simp [updateNote, falsy, h1, h2, h3, h4] at h
  by_cases h5 : (jsTrim t).length > MAX_TITLE_LENGTH
  · simp [updateNote, falsy, h1, h2, h3, h4, h5] at h
  by_cases h6 : (jsTrim c).length > MAX_CONTENT_LENGTH
  · simp [updateNote, falsy, h1, h2, h3, h4, h5, h6] at h
  refine ⟨t, c, rfl, rfl, h3, h4, Nat.le_of_not_lt h5, Nat.le_of_not_lt h6,
    ?_⟩
  rcases hcr : store.update id (sanitizeList (jsTrim t))
      (sanitizeList (jsTrim c)) with (_ | n) | _ <;>
    · simp [updateNote, falsy, h1, h2, h3, h4, h5, h6, hcr] at h
      exact ⟨h.1, h.2⟩

/-! ### The claims -/

/-- Claim C1: with title and content both present and truthy but the title
blank after trimming, `createNote` and `updateNote` answer the 400
response "Title cannot be empty" and make no store call, whatever the
content is — in particular also when the content is blank too, because
the title-emptiness check precedes the content-emptiness check. -/
theorem claim1_empty_title_wins (store : Store) (id t c : JStr)
    (ht : t ≠ []) (hc : c ≠ []) (h : (jsTrim t).length = 0) :
    createNote store (some t) (some c) =
      (⟨400, .error ("Title cannot be empty")⟩, []) ∧
    updateNote store id (some t) (some c) =
      (⟨400, .error ("Title cannot be empty")⟩, []) := by
  constructor <;>
    simp [createNote, updateNote, falsy, List.isEmpty_eq_false.mpr ht,
      List.isEmpty_eq_false.mpr hc, h]

/-- Witness for C1 at a concrete input where title and content are both
the one-space string (both blank after trim): the title error wins. -/
theorem claim1_empty_title_wins_witness :
    createNote okStore (some ([' '])) (some ([' '])) =
      (⟨400, Body.error ("Title cannot be empty")⟩, []) ∧
    updateNote okStore (['1']) (some ([' '])) (some ([' '])) =
      (⟨400, Body.error ("Title cannot be empty")⟩, []) :=
  claim1_empty_title_wins okStore ['1'] [' '] [' ']
    (by decide) (by decide) (by decide)

/-- Claim C3: sanitizing `Test <script>alert("xss")</script> Note` removes
exactly the two tag substrings `<script>` and `</script>`: the output is
the surrounding text with the inner text node `alert("xss")` preserved. -/
theorem claim3_xss_sanitization :
    sanitizeList (("Test <script>alert(\"xss\")</script> Note").toList) =
      ("Test alert(\"xss\") Note").toList ∧
    ("Test alert(\"xss\") Note").toList =
      ("Test ").toList ++ ("alert(\"xss\")").toList ++ (" Note").toList := by
  refine ⟨?_, by decide⟩
  simp [sanitizeList, dropTag]

/-- Claim C7: validation failures are returned before any store
operation: whenever `createNote` or `updateNote` answers with status 400,
its trace of store calls is empty, so `Note.create` and `Note.update`
are never invoked and the store state is unchanged. -/
theorem claim7_validation_before_store (store : Store) (id : JStr)
    (t? c? : Option JStr) :
    ((createNote store t? c?).1.status = 400 →
      (createNote store t? c?).2 = []) ∧
    ((updateNote store id t? c?).1.status = 400 →
      (updateNote store id t? c?).2 = []) := by
  constructor
  · intro h
    simp only [createNote] at h ⊢
    split_ifs at h ⊢ <;> try rfl
    cases hcr : store.create (sanitizeList (jsTrim (Option.getD t? [])))
        (sanitizeList (jsTrim (Option.getD c? []))) <;>
      rw [hcr] at h <;> simp at h
  · intro h
    simp only [updateNote] at h ⊢
    split_ifs at h ⊢ <;> try rfl
    rcases hcr : store.update id (sanitizeList (jsTrim (Option.getD t? [])))
        (sanitizeList (jsTrim (Option.getD c? []))) with (_ | n) | _ <;>
      rw [hcr] at h <;> simp at h

/-- Witness for C7: on a request with both fields missing the handlers
answer 400 and the store-call trace is empty. -/
theorem claim7_validation_before_store_witness :
    (createNote okStore none none).2 = [] ∧
    (updateNote okStore (['1']) none none).2 = [] :=
  ⟨(claim7_validation_before_store okStore ['1'] none none).1 (by rfl),
   (claim7_validation_before_store okStore ['1'] none none).2 (by rfl)⟩

/-- Claim C10: `sanitize` is idempotent — sanitizing twice equals
sanitizing once — and equivalently its output never contains a complete
substring matching the tag pattern `<[^>]*>` (`hasTag`, which
`hasTag_iff` shows captures exactly that pattern). -/
theorem claim10_sanitize_idempotent (s : JStr) :
    sanitizeList (sanitizeList s) = sanitizeList s ∧
    hasTag (sanitizeList s) = false :=
  ⟨sanitizeList_idem s, hasTag_sanitizeList s⟩

/-- Claim C8: when the store reports absence (an `ok none` result, the
model's empty `rows`) for an id, `getNoteById`, `updateNote` with a valid
body, and `deleteNote` each answer 404 with body error "Note not found" —
never a store exception and never a 500 outcome. -/
theorem claim8_absent_is_404 (store : Store) (id t c : JStr)
    (ht : t ≠ []) (hc : c ≠ [])
    (ht0 : (jsTrim t).length ≠ 0) (hc0 : (jsTrim c).length ≠ 0)
    (ht1 : (jsTrim t).length ≤ MAX_TITLE_LENGTH)
    (hc1 : (jsTrim c).length ≤ MAX_CONTENT_LENGTH)
    (h1 : store.findById id = .ok none)
    (h2 : store.update id (sanitizeList (jsTrim t))
      (sanitizeList (jsTrim c)) = .ok none)
    (h3 : store.deleteById id = .ok none) :
    (getNoteById store id).1 = ⟨404, .error ("Note not found")⟩ ∧
    (updateNote store id (some t) (some c)).1 =
      ⟨404, .error ("Note not found")⟩ ∧
    (deleteNote store id).1 = ⟨404, .error ("Note not found")⟩ := by
  refine ⟨?_, ?_, ?_⟩
  · simp [getNoteById, h1]
  · simp [updateNote, falsy, List.isEmpty_eq_false.mpr ht,
      List.isEmpty_eq_false.mpr hc, ht0, hc0,
      Nat.not_lt.mpr ht1, Nat.not_lt.mpr hc1, h2]
  · simp [deleteNote, h3]

/-- Witness for C8 on `absentStore`, whose lookups all come back empty:
each of the three handlers answers 404 "Note not found". -/
theorem claim8_absent_is_404_witness :
    (getNoteById absentStore (['1'])).1 =
      ⟨404, Body.error ("Note not found")⟩ ∧
    (updateNote absentStore (['1']) (some (['a'])) (some (['a']))).1 =
      ⟨404, Body.error ("Note not found")⟩ ∧
    (deleteNote absentStore (['1'])).1 =
      ⟨404, Body.error ("Note not found")⟩ :=
  claim8_absent_is_404 absentStore ['1'] ['a'] ['a']
    (by decide) (by decide) (by decide) (by decide) (by decide) (by decide)
    (by rfl) (by rfl) (by rfl)

/-- Claim C9: a store exception (as opposed to an absent result) is caught
by every handler and turned into a 500 outcome carrying only the
operation-specific generic message, never the underlying error detail. -/
theorem claim9_store_exn_500 (store : Store) (id t c : JStr)
    (ht : t ≠ []) (hc : c ≠ [])
    (ht0 : (jsTrim t).length ≠ 0) (hc0 : (jsTrim c).length ≠ 0)
    (ht1 : (jsTrim t).length ≤ MAX_TITLE_LENGTH)
    (hc1 : (jsTrim c).length ≤ MAX_CONTENT_LENGTH)
    (h1 : store.create (sanitizeList (jsTrim t))
      (sanitizeList (jsTrim c)) = .exn)
    (h2 : store.findAll = .exn)
    (h3 : store.findById id = .exn)
    (h4 : store.update id (sanitizeList (jsTrim t))
      (sanitizeList (jsTrim c)) = .exn)
    (h5 : store.deleteById id = .exn) :
    (createNote store (some t) (some c)).1 =
      ⟨500, .error ("Failed to create note")⟩ ∧
    (getAllNotes store).1 = ⟨500, .error ("Failed to fetch notes")⟩ ∧
    (getNoteById store id).1 = ⟨500, .error ("Failed to fetch note")⟩ ∧
    (updateNote store id (some t) (some c)).1 =
      ⟨500, .error ("Failed to update note")⟩ ∧
    (deleteNote store id).1 = ⟨500, .error ("Failed to delete note")⟩ := by
  refine ⟨?_, ?_, ?_, ?_, ?_⟩
  · simp [createNote, falsy, List.isEmpty_eq_false.mpr ht,
      List.isEmpty_eq_false.mpr hc, ht0, hc0,
      Nat.not_lt.mpr ht1, Nat.not_lt.mpr hc1, h1]
  · simp [getAllNotes, h2]
  · simp [getNoteById, h3]
  · simp [updateNote, falsy, List.isEmpty_eq_false.mpr ht,
      List.isEmpty_eq_false.mpr hc, ht0, hc0,
      Nat.not_lt.mpr ht1, Nat.not_lt.mpr hc1, h4]
  · simp [deleteNote, h5]

/-- Witness for C9 on `exnStore`, whose every operation raises: each
handler answers 500 with its generic message. -/
theorem claim9_store_exn_500_witness :
    (createNote exnStore (some (['a'])) (some (['a']))).1 =
      ⟨500, Body.error ("Failed to create note")⟩ ∧
    (getAllNotes exnStore).1 = ⟨500, Body.error ("Failed to fetch notes")⟩ ∧
    (getNoteById exnStore (['1'])).1 =
      ⟨500, Body.error ("Failed to fetch note")⟩ ∧
    (updateNote exnStore (['1']) (some (['a'])) (some (['a']))).1 =
      ⟨500, Body.error ("Failed to update note")⟩ ∧
    (deleteNote exnStore (['1'])).1 =
      ⟨500, Body.error ("Failed to delete note")⟩ :=
  claim9_store_exn_500 exnStore ['1'] ['a'] ['a']
    (by decide) (by decide) (by decide) (by decide) (by decide) (by decide)
    (by rfl) (by rfl) (by rfl) (by rfl) (by rfl)

/-- Claim C4: with a valid title, content whose trimmed length exceeds the
configured maximum is rejected by both write handlers with status 400 and
the message "Content must be 500 characters or less" (the configured
limit embedded in the text); the configured maximum is 500; and content
of trimmed length exactly 500 passes the content checks — `createNote`
answers 201 on a store that accepts the note. -/
theorem claim4_content_too_long (store : Store) (id t c : JStr)
    (ht : t ≠ []) (ht0 : (jsTrim t).length ≠ 0)
    (ht1 : (jsTrim t).length ≤ MAX_TITLE_LENGTH)
    (hc : c ≠ []) (hclen : (jsTrim c).length > MAX_CONTENT_LENGTH) :
    MAX_CONTENT_LENGTH = 500 ∧
    createNote store (some t) (some c) =
      (⟨400, .error ("Content must be 500 characters or less")⟩, []) ∧
    updateNote store id (some t) (some c) =
      (⟨400, .error ("Content must be 500 characters or less")⟩, []) ∧
    (∀ cb : JStr, (jsTrim cb).length = MAX_CONTENT_LENGTH →
      (createNote okStore (some t) (some cb)).1.status = 201) := by
  have hc0 : (jsTrim c).length ≠ 0 := by
    intro h
    rw [h] at hclen
    exact Nat.not_lt_zero _ hclen
  refine ⟨rfl, ?_, ?_, ?_⟩
  · simp [createNote, falsy, List.isEmpty_eq_false.mpr ht,
      List.isEmpty_eq_false.mpr hc, ht0, hc0, Nat.not_lt.mpr ht1, hclen]
    rfl
  · simp [updateNote, falsy, List.isEmpty_eq_false.mpr ht,
      List.isEmpty_eq_false.mpr hc, ht0, hc0, Nat.not_lt.mpr ht1, hclen]
    rfl
  · intro cb hlen
    have hcbne : cb ≠ [] := by
      intro hnil
      rw [hnil] at hlen
      simp [jsTrim, MAX_CONTENT_LENGTH] at hlen
    have hcb0 : (jsTrim cb).length ≠ 0 := by
      rw [hlen]
      decide
    have hcb1 : ¬ (jsTrim cb).length > MAX_CONTENT_LENGTH := by
      rw [hlen]
      exact lt_irrefl _
    simp [createNote, falsy, List.isEmpty_eq_false.mpr ht,
      List.isEmpty_eq_false.mpr hcbne, ht0, hcb0, Nat.not_lt.mpr ht1, hcb1,
      okStore]

/-- Witness for C4: title "a", content of 501 letters is rejected with the
limit-bearing message; the same title with content of exactly 500 letters
is accepted with 201. -/
theorem claim4_content_too_long_witness :
    MAX_CONTENT_LENGTH = 500 ∧
    createNote okStore (some (['a'])) (some (List.replicate 501 'a')) =
      (⟨400, Body.error ("Content must be 500 characters or less")⟩, []) ∧
    updateNote okStore (['1']) (some (['a']))
        (some (List.replicate 501 'a')) =
      (⟨400, Body.error ("Content must be 500 characters or less")⟩, []) ∧
    (∀ cb : JStr, (jsTrim cb).length = MAX_CONTENT_LENGTH →
      (createNote okStore (some (['a'])) (some cb)).1.status = 201) :=
  claim4_content_too_long okStore ['1'] ['a'] (List.replicate 501 'a')
    (by decide) (by decide) (by decide)
    (by
      intro h
      have h2 := congrArg List.length h
      rw [List.length_replicate, List.length_nil] at h2
      exact absurd h2 (by decide))
    (by
      rw [jsTrim_all_not_ws
        (fun a ha => by rw [(List.mem_replicate.mp ha).2]; decide)]
      rw [List.length_replicate]
      decide)

/-- Claim C5: with present non-blank title and content, a trimmed title
longer than 255 characters is rejected by both write handlers with the
message "Title must be 255 characters or less" — the title-length check
precedes the content-length check, so this holds with no bound on the
content's length; a trimmed title of exactly 255 characters passes the
length check (201 on an accepting store with a valid content), and one
of 256 characters fails (the witness rejects a 256-letter title paired
with an over-long 501-letter content). -/
theorem claim5_title_too_long (store : Store) (id t c : JStr)
    (hc : c ≠ []) (hc0 : (jsTrim c).length ≠ 0)
    (ht : t ≠ []) (htlen : (jsTrim t).length > MAX_TITLE_LENGTH) :
    MAX_TITLE_LENGTH = 255 ∧
    createNote store (some t) (some c) =
      (⟨400, .error ("Title must be 255 characters or less")⟩, []) ∧
    updateNote store id (some t) (some c) =
      (⟨400, .error ("Title must be 255 characters or less")⟩, []) ∧
    (∀ tb : JStr, (jsTrim tb).length = MAX_TITLE_LENGTH →
      (createNote okStore (some tb) (some (['a']))).1.status = 201) := by
  have ht0 : (jsTrim t).length ≠ 0 := by
    intro h
    rw [h] at htlen
    exact Nat.not_lt_zero _ htlen
  refine ⟨rfl, ?_, ?_, ?_⟩
  · simp [createNote, falsy, List.isEmpty_eq_false.mpr ht,
      List.isEmpty_eq_false.mpr hc, ht0, hc0, htlen]
    rfl
  · simp [updateNote, falsy, List.isEmpty_eq_false.mpr ht,
      List.isEmpty_eq_false.mpr hc, ht0, hc0, htlen]
    rfl
  · intro tb hlen
    have htbne : tb ≠ [] := by
      intro hnil
      rw [hnil] at hlen
      simp [jsTrim, MAX_TITLE_LENGTH] at hlen
    have htb0 : (jsTrim tb).length ≠ 0 := by
      rw [hlen]
      decide
    have htb1 : ¬ (jsTrim tb).length > MAX_TITLE_LENGTH := by
      rw [hlen]
      exact lt_irrefl _
    have hca : (['a'] : JStr) ≠ [] := by decide
    have hca0 : (jsTrim (['a'])).length ≠ 0 := by decide
    have hca1 : ¬ (jsTrim (['a'])).length > MAX_CONTENT_LENGTH := by decide
    simp [createNote, falsy, List.isEmpty_eq_false.mpr htbne,
      List.isEmpty_eq_false.mpr hca, htb0, hca0, htb1, hca1, okStore]

/-- Witness for C5: a 256-letter title is rejected with the 255-limit
message even when the content (501 letters) is itself over its limit,
because the title check comes first; a 255-letter title with a valid
content is accepted with 201. -/
theorem claim5_title_too_long_witness :
    MAX_TITLE_LENGTH = 255 ∧
    createNote okStore (some (List.replicate 256 'a'))
        (some (List.replicate 501 'a')) =
      (⟨400, Body.error ("Title must be 255 characters or less")⟩, []) ∧
    updateNote okStore (['1']) (some (List.replicate 256 'a'))
        (some (List.replicate 501 'a')) =
      (⟨400, Body.error ("Title must be 255 characters or less")⟩, []) ∧
    (∀ tb : JStr, (jsTrim tb).length = MAX_TITLE_LENGTH →
      (createNote okStore (some tb) (some (['a']))).1.status = 201) :=
  claim5_title_too_long okStore ['1'] (List.replicate 256 'a')
    (List.replicate 501 'a')
    (by
      intro h
      have h2 := congrArg List.length h
      rw [List.length_replicate, List.length_nil] at h2
      exact absurd h2 (by decide))
    (by
      rw [jsTrim_all_not_ws
        (fun a ha => by rw [(List.mem_replicate.mp ha).2]; decide)]
      rw [List.length_replicate]
      decide)
    (by
      intro h
      have h2 := congrArg List.length h
      rw [List.length_replicate, List.length_nil] at h2
      exact absurd h2 (by decide))
    (by
      rw [jsTrim_all_not_ws
        (fun a ha => by rw [(List.mem_replicate.mp ha).2]; decide)]
      rw [List.length_replicate]
      decide)

/-- Counterexample to C2 as stated: the title `<br>` passes every
validation check (present, nonempty after trim, within bounds) yet
sanitization erases it completely, so the note is persisted with an
empty title — sanitization CAN reduce a validated value to the empty
string. -/
theorem claim2_counterexample :
    createNote okStore (some (("<br>").toList)) (some (("hi").toList)) =
      (⟨201, Body.note ⟨1, [], ("hi").toList⟩⟩,
        [StoreCall.create [] (("hi").toList)]) := by
  simp [createNote, okStore, falsy, jsTrim, jsIsWs, sanitizeList, dropTag,
    MAX_TITLE_LENGTH, MAX_CONTENT_LENGTH]

/-- Claim C2 (amended): every title/content pair that `createNote` or
`updateNote` passes to the store is within the length bounds and
contains no HTML tag (sanitizing it again changes nothing) — but it is
not necessarily non-empty, since sanitization can erase a value that
passed the non-emptiness validation. -/
theorem claim2_persisted_sanitized (store : Store) (id : JStr)
    (t? c? : Option JStr) (st sc : JStr)
    (h : StoreCall.create st sc ∈ (createNote store t? c?).2 ∨
         StoreCall.update id st sc ∈ (updateNote store id t? c?).2) :
    st.length ≤ MAX_TITLE_LENGTH ∧ hasTag st = false ∧
    sanitizeList st = st ∧
    sc.length ≤ MAX_CONTENT_LENGTH ∧ hasTag sc = false ∧
    sanitizeList sc = sc := by
  rcases h with h | h
  · obtain ⟨t, c, -, -, -, -, ht1, hc1, hst, hsc⟩ := create_trace_inv h
    subst hst
    subst hsc
    exact ⟨le_trans (sanitizeList_length_le _) ht1, hasTag_sanitizeList _,
      sanitizeList_idem _, le_trans (sanitizeList_length_le _) hc1,
      hasTag_sanitizeList _, sanitizeList_idem _⟩
  · obtain ⟨t, c, -, -, -, -, ht1, hc1, hst, hsc⟩ := update_trace_inv h
    subst hst
    subst hsc
    exact ⟨le_trans (sanitizeList_length_le _) ht1, hasTag_sanitizeList _,
      sanitizeList_idem _, le_trans (sanitizeList_length_le _) hc1,
      hasTag_sanitizeList _, sanitizeList_idem _⟩

/-- Witness for (amended) C2 at the accepted request
`{title: "My Note", content: "hi"}`. -/
theorem claim2_persisted_sanitized_witness :
    (("My Note").toList).length ≤ MAX_TITLE_LENGTH ∧
    hasTag (("My Note").toList) = false ∧
    sanitizeList (("My Note").toList) = ("My Note").toList ∧
    (("hi").toList).length ≤ MAX_CONTENT_LENGTH ∧
    hasTag (("hi").toList) = false ∧
    sanitizeList (("hi").toList) = ("hi").toList :=
  claim2_persisted_sanitized okStore ['1'] (some (("My Note").toList))
    (some (("hi").toList)) (("My Note").toList) (("hi").toList)
    (Or.inl (by simp [createNote, okStore, falsy, jsTrim, jsIsWs,
      sanitizeList, dropTag, MAX_TITLE_LENGTH, MAX_CONTENT_LENGTH]))

/-- Counterexample to C6 as stated: for the title `x <b>` (no outer
whitespace, valid) with content `hi`, the persisted title is `x ` —
sanitization of the tag exposed inner whitespace at the end, so the
stored field is NOT free of trailing whitespace (trimming it would
change it). -/
theorem claim6_counterexample :
    (createNote okStore (some (("x <b>").toList))
        (some (("hi").toList))).2 =
      [StoreCall.create (("x ").toList) (("hi").toList)] ∧
    jsTrim (("x ").toList) ≠ ("x ").toList := by
  refine ⟨?_, by decide⟩
  simp [createNote, okStore, falsy, jsTrim, jsIsWs, sanitizeList, dropTag,
    MAX_TITLE_LENGTH, MAX_CONTENT_LENGTH]

/-- Claim C6 (amended): whatever reaches the store from a request
`(some t, some c)` is exactly the pair
`{sanitize (trim t), sanitize (trim c)}`; outer whitespace of the input
is always removed (`"  Title  "` trims to `"Title"`), and the persisted
value is itself whitespace-free at both ends whenever the trimmed field
contains no HTML tag — but removing a tag adjacent to inner whitespace
can expose new leading/trailing whitespace. -/
theorem claim6_normalized_output (store : Store) (id t c st sc : JStr)
    (h : StoreCall.create st sc ∈ (createNote store (some t) (some c)).2 ∨
         StoreCall.update id st sc ∈
           (updateNote store id (some t) (some c)).2) :
    st = sanitizeList (jsTrim t) ∧ sc = sanitizeList (jsTrim c) ∧
    (hasTag (jsTrim t) = false → jsTrim st = st) ∧
    (hasTag (jsTrim c) = false → jsTrim sc = sc) ∧
    jsTrim (("  Title  ").toList) = ("Title").toList := by
  have hmain : st = sanitizeList (jsTrim t) ∧
      sc = sanitizeList (jsTrim c) := by
    rcases h with h | h
    · obtain ⟨t', c', ht', hc', -, -, -, -, hst, hsc⟩ := create_trace_inv h
      injection ht' with hh
      subst hh
      injection hc' with hh2
      subst hh2
      exact ⟨hst, hsc⟩
    · obtain ⟨t', c', ht', hc', -, -, -, -, hst, hsc⟩ := update_trace_inv h
      injection ht' with hh
      subst hh
      injection hc' with hh2
      subst hh2
      exact ⟨hst, hsc⟩
  obtain ⟨hst, hsc⟩ := hmain
  subst hst
  subst hsc
  refine ⟨rfl, rfl, ?_, ?_, by decide⟩
  · intro htag
    rw [sanitizeList_eq_self htag]
    exact jsTrim_idem t
  · intro hctag
    rw [sanitizeList_eq_self hctag]
    exact jsTrim_idem c

/-- Witness for (amended) C6 at the accepted request
`{title: "  Title  ", content: "hi"}`: the persisted title is the
trimmed `"Title"`. -/
theorem claim6_normalized_output_witness :
    ("Title").toList = sanitizeList (jsTrim (("  Title  ").toList)) ∧
    ("hi").toList = sanitizeList (jsTrim (("hi").toList)) ∧
    (hasTag (jsTrim (("  Title  ").toList)) = false →
      jsTrim (("Title").toList) = ("Title").toList) ∧
    (hasTag (jsTrim (("hi").toList)) = false →
      jsTrim (("hi").toList) = ("hi").toList) ∧
    jsTrim (("  Title  ").toList) = ("Title").toList :=
  claim6_normalized_output okStore ['1'] (("  Title  ").toList)
    (("hi").toList) (("Title").toList) (("hi").toList)
    (Or.inl (by simp [createNote, okStore, falsy, jsTrim, jsIsWs,
      sanitizeList, dropTag, MAX_TITLE_LENGTH, MAX_CONTENT_LENGTH]))
